import Mathlib

/-!
Shallow embedding of the container init sequence of `nsinit` (sysinit.go):
the `Init` function that runs inside a fresh namespace, its helpers
`LoadContainerEnvironment`, `setupNetwork`, `writeUserMappings` and
`RestoreParentDeathSignal`, and the double-clone escalation block.

External effects (syscalls, file writes, the sync pipe, the network strategy
registry) are modelled by an `Oracle` of outcomes; each run of the embedded
code returns its result together with the ordered trace of the external
calls it performed, so that ordering and frame properties can be stated.
-/

namespace NsInit

/-- Go `error` values are modelled by their message strings; `none` is `nil`. -/
abbrev GoError := String

/-- A network endpoint configuration.  The init code consults only the
declared type string (`config.Type`) and otherwise passes the configuration
through to the resolved strategy, so only that field is modelled. -/
structure Network where
  type : String
  deriving DecidableEq

/-- The container configuration fields read by `Init`:
`Env`, `Hostname`, `Networks` and the `Context` string map. -/
structure Container where
  Env : List String
  Hostname : String
  Networks : List Network
  Context : List (String × String)
  deriving DecidableEq

/-- Go map lookup on the container context: missing keys read as `""`. -/
def ctxLookup (ctx : List (String × String)) (k : String) : String :=
  match ctx.find? (fun p => p.1 == k) with
  | some p => p.2
  | none => ""

/-- External calls made by the init sequence, in program order. -/
inductive Event where
  | resolveRootfs
  | clearenv
  | setenv (k v : String)
  | readFromParent
  | closePipe
  | openAndDup (path : String)
  | setsid
  | setctty
  | getStrategy (t : String)
  | initStrategy (config : Network) (ctx : List (String × String))
  | labelInit
  | mountInit (rootfs console : String)
  | sethostname (h : String)
  | openLog
  | applyProfile (name : String)
  | setProcessLabel (l : String)
  | restrict
  | getPdeath
  | setPdeath (sig : Int)
  | kill (pid sig : Int)
  | prctlSecurebits (flags : Nat)
  | setuid (uid : Int)
  | setgid (gid : Int)
  | newSyncPipe
  | clone (flags : Nat)
  | findProcess (pid : Int)
  | writeFile (path content : String) (mode : Nat)
  | procKill (pid : Int)
  | closeSPipe
  | wait (pid : Int)
  | exit (code : Nat)
  | exec (path : String) (argv env : List String)
  deriving DecidableEq

/-- How a run of `Init` ends: an ordinary `return` (with `none` for a `nil`
error), `os.Exit` with a status, or a successful `exec` of the target. -/
inductive InitResult where
  | ret (e : Option GoError)
  | exited (code : Nat)
  | execed (path : String) (argv env : List String)
  deriving DecidableEq

/-- Outcomes of every external call `Init` can make.  A field of type
`Option GoError` is the returned Go error (`none` = success); `Except`
fields also carry the returned value. -/
structure Oracle where
  resolveRootfs : Except GoError String
  setenvErr : String → String → Option GoError
  procEnv : List (String × String)
  readFromParent : Except GoError (List (String × String))
  openAndDup : String → Option GoError
  setsid : Except GoError Int
  setctty : Option GoError
  getStrategy : String → Except GoError Unit
  strategyInit : Network → List (String × String) → Option GoError
  mountInit : Option GoError
  sethostname : String → Option GoError
  openLog : Option GoError
  applyProfile : String → Option GoError
  setProcessLabel : String → Option GoError
  restrict : Option GoError
  getPdeath : Except GoError Int
  setPdeath : Int → Option GoError
  ppid : Int
  selfPid : Int
  kill : Int → Int → Option GoError
  prctl : Option GoError
  setuid : Int → Option GoError
  setgid : Int → Option GoError
  newSyncPipe : Option GoError
  clone : Except GoError Int
  findProcess : Int → Option GoError
  writeFile : String → String → Nat → Option GoError
  wait : Int → Except GoError Nat
  execErr : String → List String → List String → Option GoError

/-- Go `strings.SplitN(s, sep, 2)` for a one-character separator, on char
lists: split at the first occurrence, or `none` when absent. -/
def splitFirst (sep : Char) : List Char → Option (List Char × List Char)
  | [] => none
  | c :: cs =>
    if c = sep then some ([], cs)
    else
      match splitFirst sep cs with
      | none => none
      | some (pre, post) => some (c :: pre, post)

/-- Go `strings.SplitN(pair, "=", 2)`: one element when there is no `=`,
otherwise the parts before and after the first `=`. -/
def splitN2Eq (s : String) : List String :=
  match splitFirst '=' s.data with
  | none => [s]
  | some (pre, post) => [String.mk pre, String.mk post]

/-- Go `os.Setenv` on the modelled environment: overwrite an existing key,
otherwise append. -/
def setEnvVar (env : List (String × String)) (k v : String) :
    List (String × String) :=
  if env.any (fun p => p.1 == k) then
    env.map (fun p => if p.1 == k then (k, v) else p)
  else env ++ [(k, v)]

/-- The loop body of `LoadContainerEnvironment`: split each declared entry
on the first `=`, fail on an entry with fewer than two parts, otherwise
call `os.Setenv`.  Returns the Go result, the final process environment and
the trace of `setenv` calls. -/
def loadEnvLoop (setenvErr : String → String → Option GoError) :
    List String → List (String × String) →
    Except GoError Unit × List (String × String) × List Event
  | [], env => (Except.ok (), env, [])
  | pair :: rest, env =>
    match splitN2Eq pair with
    | [k, v] =>
      match setenvErr k v with
      | some e => (Except.error e, env, [Event.setenv k v])
      | none =>
        let out := loadEnvLoop setenvErr rest (setEnvVar env k v)
        (out.1, out.2.1, Event.setenv k v :: out.2.2)
    | _ =>
      (Except.error ("invalid environment \x27" ++ pair ++ "\x27"), env, [])

/-- Function `LoadContainerEnvironment`: first `os.Clearenv()` discards the inherited
process environment `procEnv`, then the declared entries are applied in
order. -/
def LoadContainerEnvironment (setenvErr : String → String → Option GoError)
    (containerEnv : List String) (procEnv : List (String × String)) :
    Except GoError Unit × List (String × String) × List Event :=
  let out := loadEnvLoop setenvErr containerEnv []
  (out.1, out.2.1, Event.clearenv :: out.2.2)

/-- The loop of `setupNetwork`: for each endpoint, resolve the strategy by
its type string, then invoke it with the configuration and the handshake
context. -/
def netLoop (o : Oracle) :
    List Network → List (String × String) →
    Except GoError Unit × List Event
  | [], _ => (Except.ok (), [])
  | config :: rest, context =>
    match o.getStrategy config.type with
    | Except.error e => (Except.error e, [Event.getStrategy config.type])
    | Except.ok _ =>
      match o.strategyInit config context with
      | some e1 =>
        (Except.error e1,
         [Event.getStrategy config.type, Event.initStrategy config context])
      | none =>
        let out := netLoop o rest context
        (out.1,
         Event.getStrategy config.type ::
           Event.initStrategy config context :: out.2)

/-- Function `setupNetwork(container, context)`. -/
def setupNetwork (o : Oracle) (container : Container)
    (context : List (String × String)) : Except GoError Unit × List Event :=
  netLoop o container.Networks context

/-- Path `fmt.Sprintf("/proc/%v/uid_map", pid)`. -/
def uidMapPath (pid : Int) : String := "/proc/" ++ toString pid ++ "/uid_map"

/-- Path `fmt.Sprintf("/proc/%v/gid_map", pid)`. -/
def gidMapPath (pid : Int) : String := "/proc/" ++ toString pid ++ "/gid_map"

/-- The loop of `writeUserMappings`: `ioutil.WriteFile(p, mappings, 0644)`
for each path, stopping at the first error. -/
def writeUserMappingsLoop (writeFile : String → String → Nat → Option GoError)
    (mappings : String) : List String → Except GoError Unit × List Event
  | [] => (Except.ok (), [])
  | p :: rest =>
    match writeFile p mappings 0o644 with
    | some e => (Except.error e, [Event.writeFile p mappings 0o644])
    | none =>
      let out := writeUserMappingsLoop writeFile mappings rest
      (out.1, Event.writeFile p mappings 0o644 :: out.2)

/-- Function `writeUserMappings(pid, mappings)`: write the mapping string to
`/proc/<pid>/uid_map` and then `/proc/<pid>/gid_map`. -/
def writeUserMappings (writeFile : String → String → Nat → Option GoError)
    (pid : Int) (mappings : String) : Except GoError Unit × List Event :=
  writeUserMappingsLoop writeFile mappings [uidMapPath pid, gidMapPath pid]

/-- Function `RestoreParentDeathSignal(old)`. -/
def RestoreParentDeathSignal (o : Oracle) (old : Int) :
    Except GoError Unit × List Event :=
  if old = 0 then (Except.ok (), [])
  else
    match o.getPdeath with
    | Except.error e =>
      (Except.error ("get parent death signal " ++ e), [Event.getPdeath])
    | Except.ok current =>
      if old = current then (Except.ok (), [Event.getPdeath])
      else
        match o.setPdeath old with
        | some e =>
          (Except.error ("set parent death signal " ++ e),
           [Event.getPdeath, Event.setPdeath old])
        | none =>
          -- Signal self if the parent is already dead.  In a new PID
          -- namespace Getppid returns 0, so the ppid = 1 test fails there.
          if o.ppid = 1 then
            match o.kill o.selfPid old with
            | some e =>
              (Except.error e,
               [Event.getPdeath, Event.setPdeath old,
                Event.kill o.selfPid old])
            | none =>
              (Except.ok (),
               [Event.getPdeath, Event.setPdeath old,
                Event.kill o.selfPid old])
          else (Except.ok (), [Event.getPdeath, Event.setPdeath old])

-- Constants of the escalation block (sysinit.go lines 185-214).

/-- SECBIT_KEEP_CAPS, written literally as 4 in the source. -/
def secbit_keep_caps : Nat := 4

/-- SECBIT_NO_SETUID_FIXUP, written literally as 2 in the source. -/
def secbit_no_setuid_fixup : Nat := 2

/-- The hardcoded Fixed Host Identity UID (`dockerRootUid := 1017`). -/
def dockerRootUid : Int := 1017

/-- The hardcoded Fixed Host Identity GID (`dockerRootGid := 1017`). -/
def dockerRootGid : Int := 1017

/-- Constant `syscall.CLONE_NEWUSER`. -/
def CLONE_NEWUSER : Nat := 0x10000000

/-- Constant `syscall.CLONE_FILES`. -/
def CLONE_FILES : Nat := 0x400

/-- Constant `syscall.SIGCHLD` as a clone flag. -/
def SIGCHLD : Nat := 17

/-- The clone flags of the `system.Clone` call:
`CLONE_NEWUSER | CLONE_FILES | SIGCHLD`. -/
def cloneFlags : Nat := CLONE_NEWUSER ||| CLONE_FILES ||| SIGCHLD

/-- Sequencing of a step returning only a Go error: on `some e` the wrapped
error is returned with the events of this step; on `none` the
continuation runs after the events of this step. -/
def step (res : Option GoError) (wrap : GoError → GoError)
    (evs : List Event) (k : InitResult × List Event) :
    InitResult × List Event :=
  match res with
  | some e => (InitResult.ret (some (wrap e)), evs)
  | none => (k.1, evs ++ k.2)

/-- Sequencing of a step returning a value or a Go error. -/
def stepE {α : Type} (res : Except GoError α) (wrap : GoError → GoError)
    (evs : List Event) (k : α → InitResult × List Event) :
    InitResult × List Event :=
  match res with
  | Except.error e => (InitResult.ret (some (wrap e)), evs)
  | Except.ok a => ((k a).1, evs ++ (k a).2)

/-- Prefix a run with already-performed events. -/
def prepend (evs : List Event) (p : InitResult × List Event) :
    InitResult × List Event :=
  (p.1, evs ++ p.2)

/-- The `os.OpenFile("/tmp/nsinit.log", ...)` step of `Init`.  On failure
the source returns `nil` (sysinit.go line 151), so the failing branch
produces `ret none`: the function reports success without continuing. -/
def stepLogOpen (res : Option GoError) (k : InitResult × List Event) :
    InitResult × List Event :=
  match res with
  | some _ => (InitResult.ret none, [Event.openLog])
  | none => (k.1, Event.openLog :: k.2)

/-- The nested-child branch after the clone: close this side of the nested
pipe, then `syscall.Exec(args[0], args[0:], container.Env)`. -/
def initChild (o : Oracle) (container : Container) (args : List String) :
    InitResult × List Event :=
  let prog := args.headD ""
  match o.execErr prog args container.Env with
  | some e =>
    (InitResult.ret (some e),
     [Event.closeSPipe, Event.exec prog args container.Env])
  | none =>
    (InitResult.execed prog args container.Env,
     [Event.closeSPipe, Event.exec prog args container.Env])

/-- The escalating-parent branch after the clone: find the child process,
write the single UID/GID mapping line (killing the child on failure), close
the nested pipe, wait (killing the child if the wait itself fails) and exit
with the status reported by the child. -/
def initParent (o : Oracle) (pid : Int) : InitResult × List Event :=
  step (o.findProcess pid) id [Event.findProcess pid] <|
    let mappings := "0 " ++ toString dockerRootUid ++ " 1"
    let wm := writeUserMappings o.writeFile pid mappings
    match wm.1 with
    | Except.error e =>
      (InitResult.ret (some ("Failed to write mappings: " ++ e)),
       wm.2 ++ [Event.procKill pid])
    | Except.ok _ =>
      match o.wait pid with
      | Except.error e =>
        (InitResult.ret (some ("wait: " ++ e)),
         wm.2 ++ [Event.closeSPipe, Event.wait pid, Event.procKill pid])
      | Except.ok status =>
        (InitResult.exited status,
         wm.2 ++ [Event.closeSPipe, Event.wait pid, Event.exit status])

/-- The escalation block of `Init` (sysinit.go lines 185-245): securebits,
identity switch to the Fixed Host Identity, nested sync pipe, clone, and
the parent/child branches. -/
def initEscalate (o : Oracle) (container : Container) (args : List String) :
    InitResult × List Event :=
  step o.prctl (fun e => "prctl " ++ e)
      [Event.prctlSecurebits (secbit_keep_caps ||| secbit_no_setuid_fixup)] <|
  step (o.setuid dockerRootUid) (fun e => "setuid " ++ e)
      [Event.setuid dockerRootUid] <|
  step (o.setgid dockerRootGid) (fun e => "setgid " ++ e)
      [Event.setgid dockerRootGid] <|
  step o.newSyncPipe id [Event.newSyncPipe] <|
  stepE o.clone (fun e => "userns clone: " ++ e) [Event.clone cloneFlags]
    fun pid =>
      if pid ≠ 0 then initParent o pid
      else initChild o container args

/-- Function `Init(container, uncleanRootfs, consolePath, syncPipe, args)`. -/
def Init (o : Oracle) (container : Container) (consolePath : String)
    (args : List String) : InitResult × List Event :=
  stepE o.resolveRootfs id [Event.resolveRootfs] fun rootfs =>
  let lce := LoadContainerEnvironment o.setenvErr container.Env o.procEnv
  stepE lce.1 id lce.2.2 fun _ =>
  stepE o.readFromParent id [Event.readFromParent, Event.closePipe]
    fun context =>
  step (if consolePath = "" then none else o.openAndDup consolePath) id
      (if consolePath = "" then [] else [Event.openAndDup consolePath]) <|
  stepE o.setsid (fun e => "setsid " ++ e) [Event.setsid] fun _ =>
  step (if consolePath = "" then none else o.setctty)
      (fun e => "setctty " ++ e)
      (if consolePath = "" then [] else [Event.setctty]) <|
  let net := setupNetwork o container context
  stepE net.1 (fun e => "setup networking " ++ e) net.2 fun _ =>
  prepend [Event.labelInit] <|
  step o.mountInit (fun e => "setup mount namespace " ++ e)
      [Event.mountInit rootfs consolePath] <|
  step (if container.Hostname = "" then none
        else o.sethostname container.Hostname)
      (fun e => "sethostname " ++ e)
      (if container.Hostname = "" then []
       else [Event.sethostname container.Hostname]) <|
  stepLogOpen o.openLog <|
  -- runtime.LockOSThread() happens here; it is not an external effect.
  step (o.applyProfile (ctxLookup container.Context "apparmor_profile"))
      (fun e =>
        "set apparmor profile " ++
          ctxLookup container.Context "apparmor_profile" ++ ": " ++ e)
      [Event.applyProfile (ctxLookup container.Context "apparmor_profile")] <|
  step (o.setProcessLabel (ctxLookup container.Context "process_label"))
      (fun e => "set process label " ++ e)
      [Event.setProcessLabel (ctxLookup container.Context "process_label")] <|
  step (if ctxLookup container.Context "restrictions" = "" then none
        else o.restrict) id
      (if ctxLookup container.Context "restrictions" = "" then []
       else [Event.restrict]) <|
  stepE o.getPdeath (fun e => "get parent death signal " ++ e)
      [Event.getPdeath] fun pdeathSignal =>
  let rp := RestoreParentDeathSignal o pdeathSignal
  stepE rp.1 (fun e => "restore parent death signal " ++ e) rp.2 fun _ =>
  initEscalate o container args

/-! ### Event classifiers -/

/-- Events that belong to the escalation block (everything from the
securebits call onward). -/
def isEscalateEv : Event → Bool
  | Event.prctlSecurebits _ => true
  | Event.setuid _ => true
  | Event.setgid _ => true
  | Event.newSyncPipe => true
  | Event.clone _ => true
  | Event.findProcess _ => true
  | Event.writeFile _ _ _ => true
  | Event.procKill _ => true
  | Event.closeSPipe => true
  | Event.wait _ => true
  | Event.exit _ => true
  | Event.exec _ _ _ => true
  | _ => false

/-- Mapping-file write events. -/
def isWriteFileEv : Event → Bool
  | Event.writeFile _ _ _ => true
  | _ => false

/-- Wait-for-child events. -/
def isWaitEv : Event → Bool
  | Event.wait _ => true
  | _ => false

/-- Clone events. -/
def isCloneEv : Event → Bool
  | Event.clone _ => true
  | _ => false

/-- Mount-namespace initialization events. -/
def isMountEv : Event → Bool
  | Event.mountInit _ _ => true
  | _ => false

/-- Identity-change (setuid/setgid) events. -/
def isIdentityEv : Event → Bool
  | Event.setuid _ => true
  | Event.setgid _ => true
  | _ => false

/-- Securebits, identity and clone events, for ordering statements. -/
def isSecIdEv : Event → Bool
  | Event.prctlSecurebits _ => true
  | Event.setuid _ => true
  | Event.setgid _ => true
  | Event.clone _ => true
  | _ => false

/-- Strategy-invocation events of the network dispatch. -/
def isInitStrategyEv : Event → Bool
  | Event.initStrategy _ _ => true
  | _ => false

/-! ### Sequencing machinery -/

theorem step_none (wrap : GoError → GoError) (evs : List Event)
    (k : InitResult × List Event) : step none wrap evs k = prepend evs k :=
  rfl

theorem step_some (e : GoError) (wrap : GoError → GoError)
    (evs : List Event) (k : InitResult × List Event) :
    step (some e) wrap evs k = (InitResult.ret (some (wrap e)), evs) := rfl

theorem stepE_ok {α : Type} (a : α) (wrap : GoError → GoError)
    (evs : List Event) (k : α → InitResult × List Event) :
    stepE (Except.ok a) wrap evs k = prepend evs (k a) := rfl

theorem stepE_error {α : Type} (e : GoError) (wrap : GoError → GoError)
    (evs : List Event) (k : α → InitResult × List Event) :
    stepE (Except.error e) wrap evs k =
      (InitResult.ret (some (wrap e)), evs) := rfl

theorem stepLogOpen_none (k : InitResult × List Event) :
    stepLogOpen none k = prepend [Event.openLog] k := rfl

theorem stepLogOpen_some (e : GoError) (k : InitResult × List Event) :
    stepLogOpen (some e) k = (InitResult.ret none, [Event.openLog]) := rfl

/-- A run `p` refines a run `q` up to a prefix of events outside the
interest predicate `P`: same result, same `P`-relevant trace. -/
def Reaches (P : Event → Bool) (p q : InitResult × List Event) : Prop :=
  p.1 = q.1 ∧ p.2.filter P = q.2.filter P

theorem reaches_refl (P : Event → Bool) (p : InitResult × List Event) :
    Reaches P p p :=
  ⟨rfl, rfl⟩

theorem reaches_prepend_of {P : Event → Bool} (evs : List Event)
    (hevs : ∀ ev ∈ evs, P ev = false)
    {p q : InitResult × List Event} (hpq : Reaches P p q) :
    Reaches P (prepend evs p) q := by
  obtain ⟨h1, h2⟩ := hpq
  refine ⟨h1, ?_⟩
  have : evs.filter P = [] := by
    simp only [List.filter_eq_nil_iff]
    intro a ha
    simp [hevs a ha]
  simp [prepend, List.filter_append, this, h2]

/-- Lemma `reaches_prepend_of` with the run argument first, for iterated use. -/
theorem reaches_prepend_of2 {P : Event → Bool} (evs : List Event)
    {p q : InitResult × List Event} (hpq : Reaches P p q)
    (hevs : ∀ ev ∈ evs, P ev = false) :
    Reaches P (prepend evs p) q :=
  reaches_prepend_of evs hevs hpq

/-- Filtering with a stronger predicate factors through filtering with a
weaker one. -/
theorem filter_of_filter_sub {α : Type} (p q : α → Bool)
    (hpq : ∀ a, p a = true → q a = true) :
    ∀ l : List α, (l.filter q).filter p = l.filter p := by
  intro l
  induction l with
  | nil => rfl
  | cons a l ih =>
    by_cases hq : q a = true
    · simp [List.filter_cons, hq, ih]
    · have hp : p a = false := by
        cases hpa : p a
        · rfl
        · exact absurd (hpq a hpa) hq
      simp [List.filter_cons, hq, hp, ih]

theorem reaches_filter {P : Event → Bool} {p : Event → Bool}
    (hp : ∀ ev, p ev = true → P ev = true)
    {a b : InitResult × List Event} (h : Reaches P a b) :
    a.2.filter p = b.2.filter p := by
  calc a.2.filter p
      = (a.2.filter P).filter p := (filter_of_filter_sub p P hp a.2).symm
    _ = (b.2.filter P).filter p := by rw [h.2]
    _ = b.2.filter p := filter_of_filter_sub p P hp b.2

theorem reaches_mem {P : Event → Bool} (ev : Event) (hev : P ev = true)
    {a b : InitResult × List Event} (h : Reaches P a b) (hm : ev ∈ b.2) :
    ev ∈ a.2 := by
  have : ev ∈ a.2.filter P := by
    rw [h.2]
    exact List.mem_filter.mpr ⟨hm, hev⟩
  exact (List.mem_filter.mp this).1

/-! ### Trace-shape lemmas for the loops -/

theorem loadEnvLoop_events (se : String → String → Option GoError) :
    ∀ (env : List String) (acc : List (String × String)),
      ∀ ev ∈ (loadEnvLoop se env acc).2.2, ∃ k v, ev = Event.setenv k v := by
  intro env
  induction env with
  | nil => intro acc ev hev; simp [loadEnvLoop] at hev
  | cons pair rest ih =>
    intro acc ev hev
    unfold loadEnvLoop at hev
    rcases hsp : splitN2Eq pair with _ | ⟨k, tl⟩
    · simp [hsp] at hev
    · rcases tl with _ | ⟨v, tl2⟩
      · simp [hsp] at hev
      · rcases tl2 with _ | _
        · simp only [hsp] at hev
          rcases hse : se k v with _ | e
          · simp only [hse] at hev
            rcases List.mem_cons.mp hev with h | h
            · exact ⟨k, v, h⟩
            · exact ih (setEnvVar acc k v) ev h
          · simp [hse] at hev
            exact ⟨k, v, hev⟩
        · simp [hsp] at hev

theorem netLoop_events (o : Oracle) :
    ∀ (nets : List Network) (context : List (String × String)),
      ∀ ev ∈ (netLoop o nets context).2,
        (∃ t, ev = Event.getStrategy t) ∨
          ∃ n c, ev = Event.initStrategy n c := by
  intro nets
  induction nets with
  | nil => intro context ev hev; simp [netLoop] at hev
  | cons config rest ih =>
    intro context ev hev
    unfold netLoop at hev
    rcases hgs : o.getStrategy config.type with e | u
    · simp [hgs] at hev
      exact Or.inl ⟨config.type, hev⟩
    · rcases hsi : o.strategyInit config context with _ | e1
      · simp only [hgs, hsi] at hev
        rcases List.mem_cons.mp hev with h | h
        · exact Or.inl ⟨config.type, h⟩
        · rcases List.mem_cons.mp h with h2 | h2
          · exact Or.inr ⟨config, context, h2⟩
          · exact ih context ev h2
      · simp [hgs, hsi] at hev
        rcases hev with h | h
        · exact Or.inl ⟨config.type, h⟩
        · exact Or.inr ⟨config, context, h⟩

theorem writeUserMappingsLoop_events
    (wf : String → String → Nat → Option GoError) (mappings : String) :
    ∀ paths : List String,
      ∀ ev ∈ (writeUserMappingsLoop wf mappings paths).2,
        ∃ p, ev = Event.writeFile p mappings 0o644 := by
  intro paths
  induction paths with
  | nil => intro ev hev; simp [writeUserMappingsLoop] at hev
  | cons p rest ih =>
    intro ev hev
    unfold writeUserMappingsLoop at hev
    rcases hw : wf p mappings 0o644 with _ | e
    · simp only [hw] at hev
      rcases List.mem_cons.mp hev with h | h
      · exact ⟨p, h⟩
      · exact ih ev h
    · simp [hw] at hev
      exact ⟨p, hev⟩

/-- In `Init`, `RestoreParentDeathSignal` is called with the value that
`GetParentDeathSignal` just returned, so it always takes one of its two
early-return paths. -/
theorem restore_self (o : Oracle) (s : Int)
    (hs : o.getPdeath = Except.ok s) :
    RestoreParentDeathSignal o s =
      (Except.ok (), if s = 0 then [] else [Event.getPdeath]) := by
  by_cases h0 : s = 0
  · simp [RestoreParentDeathSignal, h0]
  · simp [RestoreParentDeathSignal, h0, hs]

/-! ### Reaching the network dispatch and the escalation block -/

/-- The steps of `Init` before the network dispatch all succeed. -/
structure PreNetOk (o : Oracle) (container : Container)
    (consolePath : String) : Prop where
  hRoot : ∃ r, o.resolveRootfs = Except.ok r
  hEnv :
    (LoadContainerEnvironment o.setenvErr container.Env o.procEnv).1 =
      Except.ok ()
  hRead : ∃ ctx, o.readFromParent = Except.ok ctx
  hDup : ∀ p, o.openAndDup p = none
  hSid : ∃ n, o.setsid = Except.ok n
  hTty : o.setctty = none

/-- The steps of `Init` before the escalation block all succeed. -/
structure PreEscalateOk (o : Oracle) (container : Container)
    (consolePath : String) extends PreNetOk o container consolePath : Prop where
  hNet : ∀ ctx, (setupNetwork o container ctx).1 = Except.ok ()
  hMount : o.mountInit = none
  hHost : ∀ h, o.sethostname h = none
  hLog : o.openLog = none
  hProf : ∀ s, o.applyProfile s = none
  hLabel : ∀ s, o.setProcessLabel s = none
  hRestrict : o.restrict = none
  hPdeath : ∃ s, o.getPdeath = Except.ok s

/-- Environment-reconstruction events are not escalation events. -/
theorem lce_events_not_escalate (o : Oracle) (container : Container) :
    ∀ ev ∈ (LoadContainerEnvironment o.setenvErr container.Env o.procEnv).2.2,
      isEscalateEv ev = false := by
  intro ev hev
  simp only [LoadContainerEnvironment] at hev
  rcases List.mem_cons.mp hev with h1 | h1
  · simp [h1, isEscalateEv]
  · obtain ⟨k, v, hkv⟩ :=
      loadEnvLoop_events o.setenvErr container.Env [] ev h1
    simp [hkv, isEscalateEv]

/-- Network-dispatch events are not escalation events. -/
theorem net_events_not_escalate (o : Oracle) (container : Container)
    (ctx : List (String × String)) :
    ∀ ev ∈ (setupNetwork o container ctx).2, isEscalateEv ev = false := by
  intro ev hev
  rcases netLoop_events o container.Networks ctx ev hev with
    ⟨t, ht⟩ | ⟨nn, cc, hnc⟩
  · simp [ht, isEscalateEv]
  · simp [hnc, isEscalateEv]

/-- Under `PreEscalateOk`, the run of `Init` is the run of the escalation
block behind a prefix of non-escalation events. -/
theorem init_reaches_escalate (o : Oracle) (container : Container)
    (consolePath : String) (args : List String)
    (h : PreEscalateOk o container consolePath) :
    Reaches isEscalateEv (Init o container consolePath args)
      (initEscalate o container args) := by
  obtain ⟨r, hr⟩ := h.hRoot
  obtain ⟨ctx, hctx⟩ := h.hRead
  obtain ⟨n, hn⟩ := h.hSid
  obtain ⟨s, hs⟩ := h.hPdeath
  have hres := restore_self o s hs
  unfold Init
  simp only [hr, h.hEnv, hctx, h.hDup, hn, h.hTty, h.hNet, h.hMount, h.hHost,
    h.hLog, h.hProf, h.hLabel, h.hRestrict, hs, hres, ite_self,
    stepE_ok, step_none, stepLogOpen_none]
  repeat
    first
    | (with_reducible exact reaches_refl _ _)
    | (with_reducible refine reaches_prepend_of2 _ ?_ ?_)
  all_goals
    first
    | exact lce_events_not_escalate o container
    | exact net_events_not_escalate o container ctx
    | (intro ev hev
       split at hev <;> fin_cases hev <;> rfl)
    | (intro ev hev
       fin_cases hev <;> rfl)

/-! ### Predicate inclusions and escalation-block computations -/

theorem isWriteFileEv_escalate :
    ∀ ev, isWriteFileEv ev = true → isEscalateEv ev = true := by
  intro ev hv
  cases ev <;> simp_all [isWriteFileEv, isEscalateEv]

theorem isWaitEv_escalate :
    ∀ ev, isWaitEv ev = true → isEscalateEv ev = true := by
  intro ev hv
  cases ev <;> simp_all [isWaitEv, isEscalateEv]

theorem isCloneEv_escalate :
    ∀ ev, isCloneEv ev = true → isEscalateEv ev = true := by
  intro ev hv
  cases ev <;> simp_all [isCloneEv, isEscalateEv]

theorem isSecIdEv_escalate :
    ∀ ev, isSecIdEv ev = true → isEscalateEv ev = true := by
  intro ev hv
  cases ev <;> simp_all [isSecIdEv, isEscalateEv]

/-- The escalation block, when the securebits, identity, pipe and clone
steps succeed and the clone returns a nonzero pid, runs the
escalating-parent branch behind the five escalation-step events. -/
theorem initEscalate_parent (o : Oracle) (container : Container)
    (args : List String) (pid : Int)
    (hPrctl : o.prctl = none) (hUid : ∀ u, o.setuid u = none)
    (hGid : ∀ g, o.setgid g = none) (hPipe : o.newSyncPipe = none)
    (hClone : o.clone = Except.ok pid) (hPid : pid ≠ 0) :
    initEscalate o container args =
      ((initParent o pid).1,
       Event.prctlSecurebits (secbit_keep_caps ||| secbit_no_setuid_fixup) ::
         Event.setuid dockerRootUid :: Event.setgid dockerRootGid ::
         Event.newSyncPipe :: Event.clone cloneFlags ::
         (initParent o pid).2) := by
  simp [initEscalate, hPrctl, hUid, hGid, hPipe, hClone, hPid, step_none,
    stepE_ok, prepend]

/-- The escalating-parent branch when both mapping writes and the wait
succeed: it exits with the status reported by the child. -/
theorem initParent_write_ok (o : Oracle) (pid : Int) (status : Nat)
    (hFind : o.findProcess pid = none)
    (hWu : o.writeFile (uidMapPath pid)
      ("0 " ++ toString dockerRootUid ++ " 1") 0o644 = none)
    (hWg : o.writeFile (gidMapPath pid)
      ("0 " ++ toString dockerRootUid ++ " 1") 0o644 = none)
    (hWait : o.wait pid = Except.ok status) :
    initParent o pid =
      (InitResult.exited status,
       [Event.findProcess pid,
        Event.writeFile (uidMapPath pid)
          ("0 " ++ toString dockerRootUid ++ " 1") 0o644,
        Event.writeFile (gidMapPath pid)
          ("0 " ++ toString dockerRootUid ++ " 1") 0o644,
        Event.closeSPipe, Event.wait pid, Event.exit status]) := by
  simp [initParent, hFind, step_none, prepend, writeUserMappings,
    writeUserMappingsLoop, hWu, hWg, hWait]

/-- The escalating-parent branch when `writeUserMappings` fails — on the
uid_map write or on the gid_map write alike: the child is killed and the
branch returns the mapping error; no wait happens. -/
theorem initParent_write_fail (o : Oracle) (pid : Int) (e : GoError)
    (hFind : o.findProcess pid = none)
    (hW : (writeUserMappings o.writeFile pid
      ("0 " ++ toString dockerRootUid ++ " 1")).1 = Except.error e) :
    initParent o pid =
      (InitResult.ret (some ("Failed to write mappings: " ++ e)),
       Event.findProcess pid ::
         (writeUserMappings o.writeFile pid
           ("0 " ++ toString dockerRootUid ++ " 1")).2 ++
         [Event.procKill pid]) := by
  simp [initParent, hFind, step_none, prepend, hW]

/-- The mapping-write events of the escalating-parent branch when both
writes succeed, whatever the wait outcome. -/
theorem initParent_filter_write (o : Oracle) (pid : Int)
    (hFind : o.findProcess pid = none)
    (hWu : o.writeFile (uidMapPath pid)
      ("0 " ++ toString dockerRootUid ++ " 1") 0o644 = none)
    (hWg : o.writeFile (gidMapPath pid)
      ("0 " ++ toString dockerRootUid ++ " 1") 0o644 = none) :
    (initParent o pid).2.filter isWriteFileEv =
      [Event.writeFile (uidMapPath pid)
         ("0 " ++ toString dockerRootUid ++ " 1") 0o644,
       Event.writeFile (gidMapPath pid)
         ("0 " ++ toString dockerRootUid ++ " 1") 0o644] := by
  simp only [initParent, hFind, step_none, prepend, writeUserMappings,
    writeUserMappingsLoop, hWu, hWg]
  rcases o.wait pid with e | status <;> simp [isWriteFileEv]

/-! ### Concrete inputs for witnesses -/

/-- A concrete oracle on which every external call succeeds; the clone
returns child pid 2 and the wait reports exit status 0. -/
def oracle0 : Oracle where
  resolveRootfs := Except.ok ("/")
  setenvErr := fun _ _ => none
  procEnv := []
  readFromParent := Except.ok []
  openAndDup := fun _ => none
  setsid := Except.ok 0
  setctty := none
  getStrategy := fun _ => Except.ok ()
  strategyInit := fun _ _ => none
  mountInit := none
  sethostname := fun _ => none
  openLog := none
  applyProfile := fun _ => none
  setProcessLabel := fun _ => none
  restrict := none
  getPdeath := Except.ok 0
  setPdeath := fun _ => none
  ppid := 100
  selfPid := 50
  kill := fun _ _ => none
  prctl := none
  setuid := fun _ => none
  setgid := fun _ => none
  newSyncPipe := none
  clone := Except.ok 2
  findProcess := fun _ => none
  writeFile := fun _ _ _ => none
  wait := fun _ => Except.ok 0
  execErr := fun _ _ _ => none

/-- A concrete container configuration for witnesses. -/
def container0 : Container where
  Env := ["PATH=/bin"]
  Hostname := ""
  Networks := []
  Context := []

theorem preEsc0 : PreEscalateOk oracle0 container0 "" :=
  ⟨⟨⟨"/", rfl⟩, rfl, ⟨[], rfl⟩, fun _ => rfl, ⟨0, rfl⟩, rfl⟩,
   fun _ => rfl, rfl, fun _ => rfl, rfl, fun _ => rfl, fun _ => rfl, rfl,
   ⟨0, rfl⟩⟩

/-- Variant of `oracle0` whose write to the gid_map of pid 2 fails (the
uid_map write succeeds). -/
def oracleWgFail : Oracle :=
  { oracle0 with
    writeFile := fun p _ _ =>
      if p = gidMapPath 2 then some ("permission denied") else none }

theorem preEscWgFail : PreEscalateOk oracleWgFail container0 "" :=
  ⟨⟨⟨"/", rfl⟩, rfl, ⟨[], rfl⟩, fun _ => rfl, ⟨0, rfl⟩, rfl⟩,
   fun _ => rfl, rfl, fun _ => rfl, rfl, fun _ => rfl, fun _ => rfl, rfl,
   ⟨0, rfl⟩⟩

/-- Variant of `oracle0` whose wait reports exit status 7. -/
def oracleWait7 : Oracle := { oracle0 with wait := fun _ => Except.ok 7 }

theorem preEscWait7 : PreEscalateOk oracleWait7 container0 "" :=
  ⟨⟨⟨"/", rfl⟩, rfl, ⟨[], rfl⟩, fun _ => rfl, ⟨0, rfl⟩, rfl⟩,
   fun _ => rfl, rfl, fun _ => rfl, rfl, fun _ => rfl, fun _ => rfl, rfl,
   ⟨0, rfl⟩⟩

/-! ### Claim theorems -/

/-- Claim C1: for every spawned nested child, the escalating parent writes
exactly one mapping line of the form `0 <hostUID> 1` (namespace UID 0
mapped to the Fixed Host Identity, covering one ID), the identical line to
both `/proc/<pid>/uid_map` and `/proc/<pid>/gid_map`, with file mode 0644;
the written content is a single line (no newline), never a range and never
multiple lines. -/
theorem mapping_single_line_both_files
    (o : Oracle) (container : Container) (consolePath : String)
    (args : List String) (pid : Int)
    (h : PreEscalateOk o container consolePath)
    (hPrctl : o.prctl = none) (hUid : ∀ u, o.setuid u = none)
    (hGid : ∀ g, o.setgid g = none) (hPipe : o.newSyncPipe = none)
    (hClone : o.clone = Except.ok pid) (hPid : pid ≠ 0)
    (hFind : o.findProcess pid = none)
    (hWu : o.writeFile (uidMapPath pid)
      ("0 " ++ toString dockerRootUid ++ " 1") 0o644 = none)
    (hWg : o.writeFile (gidMapPath pid)
      ("0 " ++ toString dockerRootUid ++ " 1") 0o644 = none) :
    (Init o container consolePath args).2.filter isWriteFileEv =
      [Event.writeFile (uidMapPath pid)
         ("0 " ++ toString dockerRootUid ++ " 1") 0o644,
       Event.writeFile (gidMapPath pid)
         ("0 " ++ toString dockerRootUid ++ " 1") 0o644] ∧
    ("0 " ++ toString dockerRootUid ++ " 1").data.contains
      (Char.ofNat 10) = false := by
  constructor
  · have R := init_reaches_escalate o container consolePath args h
    rw [reaches_filter isWriteFileEv_escalate R,
      initEscalate_parent o container args pid hPrctl hUid hGid hPipe hClone
        hPid]
    have hip := initParent_filter_write o pid hFind hWu hWg
    simp [isWriteFileEv, hip]
  · decide

theorem mapping_single_line_both_files_witness :
    (Init oracle0 container0 "" ["/bin/true"]).2.filter isWriteFileEv =
      [Event.writeFile (uidMapPath 2)
         ("0 " ++ toString dockerRootUid ++ " 1") 0o644,
       Event.writeFile (gidMapPath 2)
         ("0 " ++ toString dockerRootUid ++ " 1") 0o644] ∧
    ("0 " ++ toString dockerRootUid ++ " 1").data.contains
      (Char.ofNat 10) = false :=
  mapping_single_line_both_files oracle0 container0 "" ["/bin/true"] 2
    preEsc0 rfl (fun _ => rfl) (fun _ => rfl) rfl rfl (by decide) rfl rfl rfl

/-- Claim C2: if writing the UID/GID mappings for the spawned child fails
— whether on the uid_map write or on the gid_map write — the escalating
parent kills the child, `Init` returns the error
`Failed to write mappings: <err>`, and no wait on the child is ever
performed. -/
theorem mapping_failure_kills_child_no_wait
    (o : Oracle) (container : Container) (consolePath : String)
    (args : List String) (pid : Int) (e : GoError)
    (h : PreEscalateOk o container consolePath)
    (hPrctl : o.prctl = none) (hUid : ∀ u, o.setuid u = none)
    (hGid : ∀ g, o.setgid g = none) (hPipe : o.newSyncPipe = none)
    (hClone : o.clone = Except.ok pid) (hPid : pid ≠ 0)
    (hFind : o.findProcess pid = none)
    (hW : (writeUserMappings o.writeFile pid
      ("0 " ++ toString dockerRootUid ++ " 1")).1 = Except.error e) :
    (Init o container consolePath args).1 =
      InitResult.ret (some ("Failed to write mappings: " ++ e)) ∧
    Event.procKill pid ∈ (Init o container consolePath args).2 ∧
    (Init o container consolePath args).2.filter isWaitEv = [] := by
  have R := init_reaches_escalate o container consolePath args h
  have hesc := initEscalate_parent o container args pid hPrctl hUid hGid
    hPipe hClone hPid
  have hpar := initParent_write_fail o pid e hFind hW
  have hwm : (writeUserMappings o.writeFile pid
      ("0 " ++ toString dockerRootUid ++ " 1")).2.filter isWaitEv = [] := by
    simp only [List.filter_eq_nil_iff]
    intro a ha
    obtain ⟨p, hp⟩ := writeUserMappingsLoop_events o.writeFile
      ("0 " ++ toString dockerRootUid ++ " 1")
      [uidMapPath pid, gidMapPath pid] a ha
    simp [hp, isWaitEv]
  refine ⟨?_, ?_, ?_⟩
  · rw [R.1, hesc]
    simp [hpar]
  · refine reaches_mem (Event.procKill pid) rfl R ?_
    rw [hesc]
    simp [hpar]
  · rw [reaches_filter isWaitEv_escalate R, hesc]
    simp [hpar, List.filter_append, hwm, isWaitEv]

theorem mapping_failure_kills_child_no_wait_witness :
    (Init oracleWgFail container0 "" ["/bin/true"]).1 =
      InitResult.ret
        (some ("Failed to write mappings: " ++ "permission denied")) ∧
    Event.procKill 2 ∈ (Init oracleWgFail container0 "" ["/bin/true"]).2 ∧
    (Init oracleWgFail container0 "" ["/bin/true"]).2.filter isWaitEv = [] :=
  mapping_failure_kills_child_no_wait oracleWgFail container0 ""
    ["/bin/true"] 2 ("permission denied") preEscWgFail rfl (fun _ => rfl)
    (fun _ => rfl) rfl rfl (by decide) rfl rfl

/-- Claim C3: for every exit code in [0,255] reported by the nested child,
the escalating parent, after a successful wait, terminates with exactly
that numeric exit status. -/
theorem exit_status_propagated
    (o : Oracle) (container : Container) (consolePath : String)
    (args : List String) (pid : Int) (status : Nat)
    (h : PreEscalateOk o container consolePath)
    (hPrctl : o.prctl = none) (hUid : ∀ u, o.setuid u = none)
    (hGid : ∀ g, o.setgid g = none) (hPipe : o.newSyncPipe = none)
    (hClone : o.clone = Except.ok pid) (hPid : pid ≠ 0)
    (hFind : o.findProcess pid = none)
    (hWu : o.writeFile (uidMapPath pid)
      ("0 " ++ toString dockerRootUid ++ " 1") 0o644 = none)
    (hWg : o.writeFile (gidMapPath pid)
      ("0 " ++ toString dockerRootUid ++ " 1") 0o644 = none)
    (hWait : o.wait pid = Except.ok status) (hStatus : status ≤ 255) :
    (Init o container consolePath args).1 = InitResult.exited status := by
  have R := init_reaches_escalate o container consolePath args h
  rw [R.1, initEscalate_parent o container args pid hPrctl hUid hGid hPipe
    hClone hPid]
  simp [initParent_write_ok o pid status hFind hWu hWg hWait]

theorem exit_status_propagated_witness :
    (Init oracleWait7 container0 "" ["/bin/true"]).1 =
      InitResult.exited 7 :=
  exit_status_propagated oracleWait7 container0 "" ["/bin/true"] 2 7
    preEscWait7 rfl (fun _ => rfl) (fun _ => rfl) rfl rfl (by decide) rfl
    rfl rfl rfl (by decide)

/-- Variant of `oracle0` whose setuid call fails. -/
def oracleUidFail : Oracle :=
  { oracle0 with setuid := fun _ => some ("operation not permitted") }

theorem preEscUidFail : PreEscalateOk oracleUidFail container0 "" :=
  ⟨⟨⟨"/", rfl⟩, rfl, ⟨[], rfl⟩, fun _ => rfl, ⟨0, rfl⟩, rfl⟩,
   fun _ => rfl, rfl, fun _ => rfl, rfl, fun _ => rfl, fun _ => rfl, rfl,
   ⟨0, rfl⟩⟩

/-- Claim C6: in every successful run, the securebits adjustment setting
both flags (values 4 and 2, one call) happens strictly before the setuid
and setgid switch to the Fixed Host Identity and before the clone; and a
failed setuid or setgid aborts with an error before any clone occurs. -/
theorem securebits_before_identity_before_clone
    (o : Oracle) (container : Container) (consolePath : String)
    (args : List String) (h : PreEscalateOk o container consolePath) :
    (∀ (pid : Int) (status : Nat), o.prctl = none →
      (∀ u, o.setuid u = none) → (∀ g, o.setgid g = none) →
      o.newSyncPipe = none → o.clone = Except.ok pid → pid ≠ 0 →
      o.findProcess pid = none → (∀ p c m, o.writeFile p c m = none) →
      o.wait pid = Except.ok status →
      (Init o container consolePath args).2.filter isSecIdEv =
        [Event.prctlSecurebits (secbit_keep_caps ||| secbit_no_setuid_fixup),
         Event.setuid dockerRootUid, Event.setgid dockerRootGid,
         Event.clone cloneFlags]) ∧
    (∀ e, o.prctl = none → o.setuid dockerRootUid = some e →
      (Init o container consolePath args).1 =
        InitResult.ret (some ("setuid " ++ e)) ∧
      (Init o container consolePath args).2.filter isCloneEv = []) ∧
    (∀ e, o.prctl = none → (∀ u, o.setuid u = none) →
      o.setgid dockerRootGid = some e →
      (Init o container consolePath args).1 =
        InitResult.ret (some ("setgid " ++ e)) ∧
      (Init o container consolePath args).2.filter isCloneEv = []) := by
  have R := init_reaches_escalate o container consolePath args h
  refine ⟨?_, ?_, ?_⟩
  · intro pid status hPrctl hUid hGid hPipe hClone hPid hFind hW hWait
    rw [reaches_filter isSecIdEv_escalate R,
      initEscalate_parent o container args pid hPrctl hUid hGid hPipe hClone
        hPid,
      initParent_write_ok o pid status hFind (hW _ _ _) (hW _ _ _) hWait]
    simp [isSecIdEv]
  · intro e hPrctl hUidF
    have hesc : initEscalate o container args =
        (InitResult.ret (some ("setuid " ++ e)),
         [Event.prctlSecurebits (secbit_keep_caps ||| secbit_no_setuid_fixup),
          Event.setuid dockerRootUid]) := by
      simp [initEscalate, hPrctl, hUidF, step_none, step_some, prepend]
    refine ⟨?_, ?_⟩
    · rw [R.1, hesc]
    · rw [reaches_filter isCloneEv_escalate R, hesc]
      simp [isCloneEv]
  · intro e hPrctl hUid hGidF
    have hesc : initEscalate o container args =
        (InitResult.ret (some ("setgid " ++ e)),
         [Event.prctlSecurebits (secbit_keep_caps ||| secbit_no_setuid_fixup),
          Event.setuid dockerRootUid, Event.setgid dockerRootGid]) := by
      simp [initEscalate, hPrctl, hUid, hGidF, step_none, step_some, prepend]
    refine ⟨?_, ?_⟩
    · rw [R.1, hesc]
    · rw [reaches_filter isCloneEv_escalate R, hesc]
      simp [isCloneEv]

theorem securebits_before_identity_before_clone_witness :
    (Init oracle0 container0 "" ["/bin/true"]).2.filter isSecIdEv =
      [Event.prctlSecurebits (secbit_keep_caps ||| secbit_no_setuid_fixup),
       Event.setuid dockerRootUid, Event.setgid dockerRootGid,
       Event.clone cloneFlags] ∧
    (Init oracleUidFail container0 "" ["/bin/true"]).1 =
      InitResult.ret (some ("setuid " ++ "operation not permitted")) ∧
    (Init oracleUidFail container0 "" ["/bin/true"]).2.filter isCloneEv =
      [] :=
  ⟨(securebits_before_identity_before_clone oracle0 container0 ""
      ["/bin/true"] preEsc0).1 2 0 rfl (fun _ => rfl) (fun _ => rfl) rfl rfl
      (by decide) rfl (fun _ _ _ => rfl) rfl,
   ((securebits_before_identity_before_clone oracleUidFail container0 ""
      ["/bin/true"] preEscUidFail).2.1 ("operation not permitted") rfl
      rfl).1,
   ((securebits_before_identity_before_clone oracleUidFail container0 ""
      ["/bin/true"] preEscUidFail).2.1 ("operation not permitted") rfl
      rfl).2⟩

/-- Variant of `oracle0` where the current parent-death signal differs from
the restored one and the parent is already dead (ppid 1). -/
def oraclePdeath : Oracle :=
  { oracle0 with getPdeath := Except.ok 9, ppid := 1 }

/-- Claim C7: `RestoreParentDeathSignal old` is a success no-op (no
syscalls) when `old` is zero, whatever the current value; for non-zero
`old` it re-reads the current value and re-installs `old` only when the
current value differs; and after re-installing, when the parent pid is 1
(never the case inside a new PID namespace, where it reads 0), it delivers
signal `old` to the process itself. -/
theorem restore_parent_death_signal_spec :
    (∀ o : Oracle, RestoreParentDeathSignal o 0 = (Except.ok (), [])) ∧
    (∀ (o : Oracle) (old : Int), old ≠ 0 →
      o.getPdeath = Except.ok old →
      RestoreParentDeathSignal o old =
        (Except.ok (), [Event.getPdeath])) ∧
    (∀ (o : Oracle) (old current : Int), old ≠ 0 →
      o.getPdeath = Except.ok current → current ≠ old →
      o.setPdeath old = none → o.ppid ≠ 1 →
      RestoreParentDeathSignal o old =
        (Except.ok (), [Event.getPdeath, Event.setPdeath old])) ∧
    (∀ (o : Oracle) (old current : Int), old ≠ 0 →
      o.getPdeath = Except.ok current → current ≠ old →
      o.setPdeath old = none → o.ppid = 1 →
      (RestoreParentDeathSignal o old).2 =
        [Event.getPdeath, Event.setPdeath old,
         Event.kill o.selfPid old]) := by
  refine ⟨?_, ?_, ?_, ?_⟩
  · intro o
    simp [RestoreParentDeathSignal]
  · intro o old h0 hcur
    simp [RestoreParentDeathSignal, h0, hcur]
  · intro o old current h0 hcur hne hset hppid
    have hne2 : ¬old = current := fun hh => hne hh.symm
    simp [RestoreParentDeathSignal, h0, hcur, hne2, hset, hppid]
  · intro o old current h0 hcur hne hset hppid
    have hne2 : ¬old = current := fun hh => hne hh.symm
    simp only [RestoreParentDeathSignal, h0, hcur, hne2, hset, hppid,
      if_false, ite_true, ite_false, reduceIte, if_true]
    rcases o.kill o.selfPid old with _ | e <;> rfl

theorem restore_parent_death_signal_spec_witness :
    RestoreParentDeathSignal oracle0 0 = (Except.ok (), []) ∧
    (RestoreParentDeathSignal oraclePdeath 15).2 =
      [Event.getPdeath, Event.setPdeath 15, Event.kill 50 15] :=
  ⟨restore_parent_death_signal_spec.1 oracle0,
   restore_parent_death_signal_spec.2.2.2 oraclePdeath 15 9 (by decide) rfl
     (by decide) rfl rfl⟩

/-- Claim C9: for every pid and mapping string, if the write to
`/proc/<pid>/uid_map` fails, `writeUserMappings` returns that error
immediately: the only write attempted is the uid_map write, and the
gid_map path (a different file) is never written. -/
theorem uid_map_failure_skips_gid_map
    (wf : String → String → Nat → Option GoError) (pid : Int)
    (mappings : String) (e : GoError)
    (hWu : wf (uidMapPath pid) mappings 0o644 = some e) :
    writeUserMappings wf pid mappings =
      (Except.error e, [Event.writeFile (uidMapPath pid) mappings 0o644]) ∧
    uidMapPath pid ≠ gidMapPath pid := by
  constructor
  · simp [writeUserMappings, writeUserMappingsLoop, hWu]
  · intro heq
    have hdata : (uidMapPath pid).data = (gidMapPath pid).data := by
      rw [heq]
    simp only [uidMapPath, gidMapPath, String.data_append] at hdata
    have h2 := List.append_cancel_left hdata
    have : ("/uid_map" : String).data = ("/gid_map" : String).data := h2
    simp at this

theorem uid_map_failure_skips_gid_map_witness :
    writeUserMappings
        (fun p _ _ =>
          if p = uidMapPath 3 then some ("permission denied") else none)
        3 ("0 " ++ toString dockerRootUid ++ " 1") =
      (Except.error ("permission denied"),
       [Event.writeFile (uidMapPath 3)
          ("0 " ++ toString dockerRootUid ++ " 1") 0o644]) ∧
    uidMapPath 3 ≠ gidMapPath 3 :=
  uid_map_failure_skips_gid_map
    (fun p _ _ =>
      if p = uidMapPath 3 then some ("permission denied") else none)
    3 ("0 " ++ toString dockerRootUid ++ " 1") ("permission denied")
    (by simp)

/-! ### Splitting on the first equals sign -/

theorem splitFirst_eq_none_iff (c : Char) :
    ∀ l : List Char, splitFirst c l = none ↔ c ∉ l := by
  intro l
  induction l with
  | nil => simp [splitFirst]
  | cons a l ih =>
    by_cases hac : a = c
    · simp [splitFirst, hac]
    · rcases hsp : splitFirst c l with _ | ⟨pre, post⟩
      · have hnotin := ih.mp hsp
        have hne : ¬c = a := fun hh => hac hh.symm
        simp [splitFirst, hac, hsp, List.mem_cons, hne, hnotin]
      · have hin : c ∈ l := by
          by_contra hc
          exact absurd (ih.mpr hc) (by simp [hsp])
        simp [splitFirst, hac, hsp, List.mem_cons, hin]

theorem splitN2Eq_no_eq (s : String) (h : ('=' : Char) ∉ s.data) :
    splitN2Eq s = [s] := by
  simp [splitN2Eq, (splitFirst_eq_none_iff '=' s.data).mpr h]

/-- The environment accumulated by applying well-formed declared entries
in order, as the `LoadContainerEnvironment` loop does. -/
def applyEnv : List String → List (String × String) → List (String × String)
  | [], env => env
  | pair :: rest, env =>
    match splitN2Eq pair with
    | [k, v] => applyEnv rest (setEnvVar env k v)
    | _ => env

/-! ### Network dispatch lemmas -/

/-- Mount-namespace and identity-change events, for the dispatch-order
statements. -/
def isMountIdEv : Event → Bool
  | Event.mountInit _ _ => true
  | Event.setuid _ => true
  | Event.setgid _ => true
  | _ => false

/-- Environment-reconstruction events are neither mount nor identity
events. -/
theorem lce_events_not_mountid (o : Oracle) (container : Container) :
    ∀ ev ∈ (LoadContainerEnvironment o.setenvErr container.Env o.procEnv).2.2,
      isMountIdEv ev = false := by
  intro ev hev
  simp only [LoadContainerEnvironment] at hev
  rcases List.mem_cons.mp hev with h1 | h1
  · simp [h1, isMountIdEv]
  · obtain ⟨k, v, hkv⟩ :=
      loadEnvLoop_events o.setenvErr container.Env [] ev h1
    simp [hkv, isMountIdEv]

/-- If every endpoint before `bad` resolves and initializes, and the type
of `bad` has no strategy, the network loop fails with the lookup error. -/
theorem netLoop_fail (o : Oracle) (ctx : List (String × String)) :
    ∀ (nets1 : List Network) (bad : Network) (nets2 : List Network)
      (e : GoError),
      (∀ n ∈ nets1, o.getStrategy n.type = Except.ok () ∧
        o.strategyInit n ctx = none) →
      o.getStrategy bad.type = Except.error e →
      (netLoop o (nets1 ++ bad :: nets2) ctx).1 = Except.error e := by
  intro nets1
  induction nets1 with
  | nil =>
    intro bad nets2 e _ hbad
    simp [netLoop, hbad]
  | cons n rest ih =>
    intro bad nets2 e h1 hbad
    obtain ⟨hg, hi⟩ := h1 n (by simp)
    simp only [List.cons_append, netLoop, hg, hi]
    exact ih bad nets2 e (fun m hm => h1 m (by simp [hm])) hbad

/-- If every endpoint resolves and initializes, the loop succeeds and
invokes the strategy of each endpoint exactly once, in order, with the
configuration and the handshake context. -/
theorem netLoop_ok (o : Oracle) (ctx : List (String × String)) :
    ∀ nets : List Network,
      (∀ n ∈ nets, o.getStrategy n.type = Except.ok () ∧
        o.strategyInit n ctx = none) →
      (netLoop o nets ctx).1 = Except.ok () ∧
      (netLoop o nets ctx).2.filter isInitStrategyEv =
        nets.map (fun n => Event.initStrategy n ctx) := by
  intro nets
  induction nets with
  | nil =>
    intro _
    simp [netLoop]
  | cons n rest ih =>
    intro hl
    obtain ⟨hg, hi⟩ := hl n (by simp)
    have ihr := ih (fun m hm => hl m (by simp [hm]))
    simp [netLoop, hg, hi, isInitStrategyEv, ihr.1, ihr.2]

/-- Under `PreNetOk` with a failing network dispatch, the run of `Init`
is the failed dispatch behind a prefix free of mount and identity
events. -/
theorem init_reaches_netfail (o : Oracle) (container : Container)
    (consolePath : String) (args : List String)
    (h : PreNetOk o container consolePath)
    (ctx : List (String × String))
    (hctx : o.readFromParent = Except.ok ctx) (e : GoError)
    (hfail : (setupNetwork o container ctx).1 = Except.error e) :
    Reaches isMountIdEv (Init o container consolePath args)
      (InitResult.ret (some ("setup networking " ++ e)),
       (setupNetwork o container ctx).2) := by
  obtain ⟨r, hr⟩ := h.hRoot
  obtain ⟨n, hn⟩ := h.hSid
  unfold Init
  simp only [hr, h.hEnv, hctx, h.hDup, hn, h.hTty, hfail, ite_self,
    stepE_ok, step_none, stepE_error]
  repeat
    first
    | (with_reducible exact reaches_refl _ _)
    | (with_reducible refine reaches_prepend_of2 _ ?_ ?_)
  all_goals
    first
    | exact lce_events_not_mountid o container
    | (intro ev hev
       split at hev <;> fin_cases hev <;> rfl)
    | (intro ev hev
       fin_cases hev <;> rfl)

/-- Claim C10: the invalid-environment configuration error is reported
exactly for entries containing no `=` at all; an entry beginning with `=`
(empty key, e.g. `=value`) splits into two parts, passes the validity
check, and proceeds to the set-variable call with key `""` rather than
being rejected as a configuration error. -/
theorem invalid_env_exactly_no_equals :
    (∀ (pair : String) (procEnv : List (String × String)),
      (LoadContainerEnvironment (fun _ _ => none) [pair] procEnv).1 =
        Except.error ("invalid environment \x27" ++ pair ++ "\x27") ↔
      ('=' : Char) ∉ pair.data) ∧
    ((LoadContainerEnvironment (fun _ _ => none) ["=value"] []).1 =
       Except.ok () ∧
     (LoadContainerEnvironment (fun _ _ => none) ["=value"] []).2.1 =
       [("", "value")] ∧
     Event.setenv "" "value" ∈
       (LoadContainerEnvironment (fun _ _ => none) ["=value"] []).2.2) := by
  constructor
  · intro pair procEnv
    rcases hsp : splitFirst '=' pair.data with _ | ⟨pre, post⟩
    · have hc := (splitFirst_eq_none_iff '=' pair.data).mp hsp
      simp [LoadContainerEnvironment, loadEnvLoop, splitN2Eq, hsp, hc]
    · have hc : ('=' : Char) ∈ pair.data := by
        by_contra hcc
        exact absurd ((splitFirst_eq_none_iff '=' pair.data).mpr hcc)
          (by simp [hsp])
      simp [LoadContainerEnvironment, loadEnvLoop, splitN2Eq, hsp, hc]
  · refine ⟨rfl, rfl, by decide⟩

theorem invalid_env_exactly_no_equals_witness :
    (LoadContainerEnvironment (fun _ _ => none) ["NOEQ"] []).1 =
      Except.error ("invalid environment \x27" ++ "NOEQ" ++ "\x27") :=
  (invalid_env_exactly_no_equals.1 "NOEQ" []).mpr (by decide)

/-- Claim C5, counterexample: with declared environment
`["A=1", "B"]` and inherited environment `[("X", "Y")]`, reconstruction
fails with the configuration error, but the environment left behind is
`[("A", "1")]`: the inherited environment is gone and the entry preceding
the invalid one has been applied, so a partially-applied environment
remains (it is neither empty nor the inherited one). -/
theorem load_env_partial_counterexample :
    (LoadContainerEnvironment (fun _ _ => none) ["A=1", "B"]
        [("X", "Y")]).1 =
      Except.error ("invalid environment \x27B\x27") ∧
    (LoadContainerEnvironment (fun _ _ => none) ["A=1", "B"]
        [("X", "Y")]).2.1 = [("A", "1")] ∧
    (LoadContainerEnvironment (fun _ _ => none) ["A=1", "B"]
        [("X", "Y")]).2.1 ≠ [] ∧
    (LoadContainerEnvironment (fun _ _ => none) ["A=1", "B"]
        [("X", "Y")]).2.1 ≠ [("X", "Y")] := by
  refine ⟨rfl, rfl, by decide, by decide⟩

/-- Claim C5 as amended: for any declared environment containing an entry
with no `=`, reconstruction fails with the configuration error naming that
entry; however, the inherited environment has already been discarded and
every well-formed entry preceding the invalid one has already been
applied, so the environment left behind is exactly that applied prefix. -/
theorem load_env_invalid_entry_partial
    (se : String → String → Option GoError) (hse : ∀ k v, se k v = none)
    (env1 env2 : List String) (bad : String)
    (hbad : ('=' : Char) ∉ bad.data)
    (procEnv : List (String × String))
    (h1 : ∀ p ∈ env1, (splitN2Eq p).length = 2) :
    (LoadContainerEnvironment se (env1 ++ bad :: env2) procEnv).1 =
      Except.error ("invalid environment \x27" ++ bad ++ "\x27") ∧
    (LoadContainerEnvironment se (env1 ++ bad :: env2) procEnv).2.1 =
      applyEnv env1 [] := by
  have hbadsp := splitN2Eq_no_eq bad hbad
  have key : ∀ (l : List String) (acc : List (String × String)),
      (∀ p ∈ l, (splitN2Eq p).length = 2) →
      (loadEnvLoop se (l ++ bad :: env2) acc).1 =
        Except.error ("invalid environment \x27" ++ bad ++ "\x27") ∧
      (loadEnvLoop se (l ++ bad :: env2) acc).2.1 = applyEnv l acc := by
    intro l
    induction l with
    | nil =>
      intro acc _
      simp [loadEnvLoop, hbadsp, applyEnv]
    | cons p rest ih =>
      intro acc hl
      have hp := hl p (by simp)
      rcases hsp : splitN2Eq p with _ | ⟨k, tl⟩
      · rw [hsp] at hp
        simp at hp
      · rcases tl with _ | ⟨v, tl2⟩
        · rw [hsp] at hp
          simp at hp
        · rcases tl2 with _ | ⟨w, tl3⟩
          · have ihr := ih (setEnvVar acc k v)
              (fun q hq => hl q (by simp [hq]))
            simp [loadEnvLoop, hsp, hse, applyEnv, ihr.1, ihr.2]
          · rw [hsp] at hp
            simp at hp
  have hk := key env1 [] h1
  simp [LoadContainerEnvironment, hk.1, hk.2]

theorem load_env_invalid_entry_partial_witness :
    (LoadContainerEnvironment (fun _ _ => none) (["A=1"] ++ "B" :: [])
        [("X", "Y")]).1 =
      Except.error ("invalid environment \x27" ++ "B" ++ "\x27") ∧
    (LoadContainerEnvironment (fun _ _ => none) (["A=1"] ++ "B" :: [])
        [("X", "Y")]).2.1 = applyEnv ["A=1"] [] :=
  load_env_invalid_entry_partial (fun _ _ => none) (fun _ _ => rfl) ["A=1"]
    [] "B" (by decide) [("X", "Y")] (by decide)

/-- Variant of `oracle0` whose diagnostic log file cannot be opened. -/
def oracleLogFail : Oracle :=
  { oracle0 with openLog := some ("permission denied") }

/-- Claim C4 (divergence witness): when opening `/tmp/nsinit.log` fails
after every earlier step succeeded, `Init` returns a `nil` error — it
reports success while the initialization sequence was aborted before the
security, identity and clone steps (sysinit.go line 151 returns `nil`
instead of an error). -/
theorem log_open_failure_returns_nil :
    oracleLogFail.openLog = some ("permission denied") ∧
    (Init oracleLogFail container0 "" ["/bin/true"]).1 =
      InitResult.ret none := by
  refine ⟨rfl, by decide⟩

/-- A container with one registered endpoint type followed by an
unregistered one. -/
def containerNet : Container where
  Env := []
  Hostname := ""
  Networks := [Network.mk "veth", Network.mk "bogus"]
  Context := []

/-- Variant of `oracle0` whose strategy lookup fails for type `"bogus"`. -/
def oracleNetFail : Oracle :=
  { oracle0 with
    getStrategy := fun t =>
      if t = "bogus" then Except.error ("Not found") else Except.ok () }

theorem preNetNetFail : PreNetOk oracleNetFail containerNet "" :=
  ⟨⟨"/", rfl⟩, rfl, ⟨[], rfl⟩, fun _ => rfl, ⟨0, rfl⟩, rfl⟩

/-- Claim C8: for every endpoint whose type has no registered strategy
(all earlier endpoints resolving and initializing), `Init` fails at the
dispatch step and its whole run contains no mount-namespace
initialization and no identity (setuid/setgid) change; and for registered
types the resolved strategy is invoked exactly once per endpoint, in
order, with the endpoint configuration and the handshake payload. -/
theorem network_dispatch_unknown_and_once :
    (∀ (o : Oracle) (container : Container) (consolePath : String)
        (args : List String) (ctx : List (String × String))
        (nets1 : List Network) (bad : Network) (nets2 : List Network)
        (e : GoError),
      PreNetOk o container consolePath →
      o.readFromParent = Except.ok ctx →
      container.Networks = nets1 ++ bad :: nets2 →
      (∀ n ∈ nets1, o.getStrategy n.type = Except.ok () ∧
        o.strategyInit n ctx = none) →
      o.getStrategy bad.type = Except.error e →
      (Init o container consolePath args).1 =
        InitResult.ret (some ("setup networking " ++ e)) ∧
      (Init o container consolePath args).2.filter isMountIdEv = []) ∧
    (∀ (o : Oracle) (container : Container)
        (ctx : List (String × String)),
      (∀ n ∈ container.Networks, o.getStrategy n.type = Except.ok () ∧
        o.strategyInit n ctx = none) →
      (setupNetwork o container ctx).1 = Except.ok () ∧
      (setupNetwork o container ctx).2.filter isInitStrategyEv =
        container.Networks.map (fun n => Event.initStrategy n ctx)) := by
  constructor
  · intro o container consolePath args ctx nets1 bad nets2 e h hctx hnets h1
      hbad
    have hfail : (setupNetwork o container ctx).1 = Except.error e := by
      rw [setupNetwork, hnets]
      exact netLoop_fail o ctx nets1 bad nets2 e h1 hbad
    have R := init_reaches_netfail o container consolePath args h ctx hctx e
      hfail
    refine ⟨R.1, ?_⟩
    rw [R.2]
    simp only [List.filter_eq_nil_iff]
    intro a ha
    rcases netLoop_events o container.Networks ctx a ha with
      ⟨t, ht⟩ | ⟨nn, cc, hnc⟩
    · simp [ht, isMountIdEv]
    · simp [hnc, isMountIdEv]
  · intro o container ctx hl
    exact netLoop_ok o ctx container.Networks hl

theorem network_dispatch_unknown_and_once_witness :
    ((Init oracleNetFail containerNet "" ["/bin/true"]).1 =
       InitResult.ret (some ("setup networking " ++ "Not found")) ∧
     (Init oracleNetFail containerNet "" ["/bin/true"]).2.filter
       isMountIdEv = []) ∧
    ((setupNetwork oracle0 containerNet []).1 = Except.ok () ∧
     (setupNetwork oracle0 containerNet []).2.filter isInitStrategyEv =
       [Event.initStrategy (Network.mk "veth") [],
        Event.initStrategy (Network.mk "bogus") []]) :=
  ⟨network_dispatch_unknown_and_once.1 oracleNetFail containerNet ""
     ["/bin/true"] [] [Network.mk "veth"] (Network.mk "bogus") []
     ("Not found") preNetNetFail rfl rfl
     (by
       intro n hn
       simp at hn
       subst hn
       exact ⟨rfl, rfl⟩)
     rfl,
   network_dispatch_unknown_and_once.2 oracle0 containerNet []
     (fun n _ => ⟨rfl, rfl⟩)⟩

end NsInit
